import Mathlib

/-!
Verification of the game-blitz ranking core and statistic REST layer.

The repository ships the test suites for the ranking functions and the
statistic HTTP handlers; the implementations themselves live outside the
shipped sources, so every operation below is modelled from the natural
language specification (sections 3, 4, 6 and 7 of spec.md) and checked for
consistency with the shipped test suite
(internal/controller/rest/statistic_test.go).

Collaborator operations (increment, set-if-greater, set-if-lesser,
paged-fetch, and the statistic domain functions) are abstract function
parameters, mirroring the dependency-injection style of the source.  Each
modelled operation returns, next to its result, the list of collaborator
invocations it performed, so that "invokes only X" and "invokes none" become
statements about that list.  Numeric score values are carried opaquely (the
core never computes with them), modelled as rationals; timestamps are
integers with 0 as the distinguished zero time.
-/

namespace GameBlitz

/-! ## Data model -/

/-- Aggregation mode constant for the increment strategy. -/
def AggregationModeInc : String := "INC"

/-- Aggregation mode constant for the keep-max strategy. -/
def AggregationModeMax : String := "MAX"

/-- Aggregation mode constant for the keep-min strategy. -/
def AggregationModeMin : String := "MIN"

/-- Ordering constant for ascending reads. -/
def OrderingAsc : String := "ASC"

/-- Ordering constant for descending reads. -/
def OrderingDesc : String := "DESC"

/-- Modelled from the spec: the `Leaderboard` value object (id, game id,
aggregation mode, ordering, end time).  Aggregation mode and ordering are
string-like enum values, as in the source; `EndAt = 0` is the zero time
(the leaderboard never closes). -/
structure Leaderboard where
  ID : String
  GameID : String
  AggregationMode : String
  Ordering : String
  EndAt : Int
deriving DecidableEq, Repr

/-- Modelled from the spec: a leaderboard is closed when its end time is
non-zero and in the past (`now` is the current timestamp, passed
explicitly). -/
def Leaderboard.Closed (lb : Leaderboard) (now : Int) : Bool :=
  lb.EndAt != 0 && decide (lb.EndAt < now)

/-- Modelled from the spec: the `Rank` value object (player id, numeric
value) produced by the page-read collaborator. -/
structure Rank where
  PlayerID : String
  Value : ℚ
deriving DecidableEq, Repr

/-- Error kinds of the ranking core; `ErrOther` stands for an arbitrary
collaborator-reported error (e.g. not-found). -/
inductive RankingError where
  | ErrLeaderboardClosed
  | ErrInvalidAggregationMode
  | ErrInvalidPageNumber
  | ErrInvalidLimitNumber
  | ErrInvalidOrdering
  | ErrNotFound
  | ErrOther (msg : String)
deriving DecidableEq, Repr

/-- A record of one invocation of an upsert collaborator operation, with
the arguments passed to it. -/
inductive UpsertCall where
  | increment (leaderboardID playerID : String) (value : ℚ)
  | setMax (leaderboardID playerID : String) (value : ℚ)
  | setMin (leaderboardID playerID : String) (value : ℚ)
deriving DecidableEq, Repr

/-- Modelled from the spec: the Ranking Upsert Selector
(`BuildUpsertPlayerRankFunc`).  Given the three externally supplied update
operations, a current timestamp, a leaderboard, a player id and a candidate
value: fails with `ErrLeaderboardClosed` when the leaderboard window is
closed; otherwise dispatches on the aggregation mode to exactly one
operation, passing leaderboard id, player id and value, and propagates its
error unchanged; fails with `ErrInvalidAggregationMode` on any other mode.
The second component records the collaborator invocations performed. -/
def buildUpsertPlayerRankFunc
    (incrementPlayerRankValueFunc setMaxPlayerRankValueFunc setMinPlayerRankValueFunc :
      String → String → ℚ → Option RankingError)
    (now : Int) (lb : Leaderboard) (playerID : String) (value : ℚ) :
    Option RankingError × List UpsertCall :=
  if lb.Closed now then
    (some RankingError.ErrLeaderboardClosed, [])
  else if lb.AggregationMode = AggregationModeInc then
    (incrementPlayerRankValueFunc lb.ID playerID value,
      [UpsertCall.increment lb.ID playerID value])
  else if lb.AggregationMode = AggregationModeMax then
    (setMaxPlayerRankValueFunc lb.ID playerID value,
      [UpsertCall.setMax lb.ID playerID value])
  else if lb.AggregationMode = AggregationModeMin then
    (setMinPlayerRankValueFunc lb.ID playerID value,
      [UpsertCall.setMin lb.ID playerID value])
  else
    (some RankingError.ErrInvalidAggregationMode, [])

/-- Modelled from the spec: the configured minimum page number (0). -/
def MinPageNumber : Int := 0

/-- A record of one invocation of the paged-fetch collaborator, with the
arguments passed to it. -/
structure FetchCall where
  leaderboardID : String
  ordering : String
  page : Int
  limit : Int
deriving DecidableEq, Repr

/-- Modelled from the spec: the Ranking Page Reader (`BuildRankingFunc`).
Fails with `ErrInvalidPageNumber` when `page < MinPageNumber`; fails with
`ErrInvalidLimitNumber` when the limit falls outside the configured
`[minLimit, maxLimit]` range (the spec leaves the bound values to
configuration, so they are parameters here); otherwise delegates to the
externally supplied paged-fetch operation with the leaderboard id and
ordering, returning its result unchanged.  The second component records
the fetch invocations performed. -/
def buildRankingFunc
    (fetchFunc : String → String → Int → Int → Except RankingError (List Rank))
    (minLimit maxLimit : Int)
    (lb : Leaderboard) (page limit : Int) :
    Except RankingError (List Rank) × List FetchCall :=
  if page < MinPageNumber then
    (Except.error RankingError.ErrInvalidPageNumber, [])
  else if limit < minLimit ∨ maxLimit < limit then
    (Except.error RankingError.ErrInvalidLimitNumber, [])
  else
    (fetchFunc lb.ID lb.Ordering page limit,
      [{ leaderboardID := lb.ID, ordering := lb.Ordering, page := page, limit := limit }])

/-! ## Statistic REST layer

The statistic endpoints (create, get, delete) are modelled from the spec:
each handler checks the required game-id header, parses the request body
where one exists, invokes the configured domain function, and maps domain
error kinds to HTTP status codes (validation errors to 422, not-found to
404, malformed body to 400, unexpected errors to 500, success to 200, 201
or 204). -/

/-- Modelled from the spec: the payload of a create-statistic request body
(the game id comes from the header, not the body). -/
structure CreateStatisticReq where
  Name : String
  Description : String
  AggregationMode : String
  Goal : Option ℚ
  Landmarks : List ℚ
deriving DecidableEq, Repr

/-- Modelled from the spec: the data handed to the create-statistic domain
function, assembled from the request body and the game-id header. -/
structure NewStatisticData where
  GameID : String
  Name : String
  Description : String
  AggregationMode : String
  Goal : Option ℚ
  Landmarks : List ℚ
deriving DecidableEq, Repr

/-- Assemble the domain payload from the parsed body and the game id taken
from the header. -/
def CreateStatisticReq.toDomain (r : CreateStatisticReq) (gameID : String) :
    NewStatisticData :=
  { GameID := gameID, Name := r.Name, Description := r.Description,
    AggregationMode := r.AggregationMode, Goal := r.Goal, Landmarks := r.Landmarks }

/-- Modelled from the spec: the `Statistic` entity returned by the domain
functions. -/
structure Statistic where
  ID : String
  GameID : String
  Name : String
  Description : String
  AggregationMode : String
  Goal : Option ℚ
  Landmarks : List ℚ
deriving DecidableEq, Repr

/-- Domain error kinds reported by the statistic domain functions:
validation failures, a distinguished not-found case, and arbitrary
unexpected errors. -/
inductive StatisticError where
  | ErrInvalidStatistic
  | ErrInvalidStatisticID
  | ErrStatisticNotFound
  | ErrOther (msg : String)
deriving DecidableEq, Repr

/-- The distinguished error-response bodies of the statistic endpoints. -/
inductive ErrorResponse where
  | StatisticInvalid
  | StatisticInvalidID
  | StatisticInvalidGameID
  | StatisticNotFound
  | InvalidRequestBody
  | InternalServerError
deriving DecidableEq, Repr

/-- Modelled from the spec: the mapping from a domain error kind to the
HTTP status code and error-response body: validation errors to 422,
not-found to 404, unexpected errors to 500. -/
def statisticErrorToResponse : StatisticError → Nat × ErrorResponse
  | StatisticError.ErrInvalidStatistic => (422, ErrorResponse.StatisticInvalid)
  | StatisticError.ErrInvalidStatisticID => (422, ErrorResponse.StatisticInvalidID)
  | StatisticError.ErrStatisticNotFound => (404, ErrorResponse.StatisticNotFound)
  | StatisticError.ErrOther _ => (500, ErrorResponse.InternalServerError)

/-- An HTTP reply: a success status with a payload, or a failure status
with one of the distinguished error-response bodies. -/
inductive HttpReply (α : Type) where
  | success (status : Nat) (body : α)
  | failure (status : Nat) (body : ErrorResponse)
deriving DecidableEq, Repr

/-- Modelled from the spec: the create-statistic handler.  The game-id
header gates the route (422 with the invalid-game-id response when it is
absent, without invoking the domain function); a malformed body yields 400;
otherwise the configured domain function is invoked with the assembled
payload, success yields 201, and a domain error is mapped through
`statisticErrorToResponse`.  The header value is `none` when the header is
missing; the body is `none` when it does not parse.  The second component
records the domain-function invocations performed. -/
def buildCreateStatisticHandler
    (createStatisticFunc : NewStatisticData → Except StatisticError Statistic)
    (gameID : Option String) (body : Option CreateStatisticReq) :
    HttpReply Statistic × List NewStatisticData :=
  match gameID with
  | none => (HttpReply.failure 422 ErrorResponse.StatisticInvalidGameID, [])
  | some gid =>
    match body with
    | none => (HttpReply.failure 400 ErrorResponse.InvalidRequestBody, [])
    | some req =>
      match createStatisticFunc (req.toDomain gid) with
      | Except.ok s => (HttpReply.success 201 s, [req.toDomain gid])
      | Except.error e =>
        (HttpReply.failure (statisticErrorToResponse e).1 (statisticErrorToResponse e).2,
          [req.toDomain gid])

/-- Modelled from the spec: the get-statistic handler.  The game-id header
gates the route; otherwise the configured domain function is invoked with
the statistic id from the path and the game id from the header, success
yields 200, and a domain error is mapped through
`statisticErrorToResponse`.  The second component records the
domain-function invocations performed. -/
def buildGetStatisticHandler
    (getStatisticByIDAndGameIDFunc : String → String → Except StatisticError Statistic)
    (gameID : Option String) (statisticID : String) :
    HttpReply Statistic × List (String × String) :=
  match gameID with
  | none => (HttpReply.failure 422 ErrorResponse.StatisticInvalidGameID, [])
  | some gid =>
    match getStatisticByIDAndGameIDFunc statisticID gid with
    | Except.ok s => (HttpReply.success 200 s, [(statisticID, gid)])
    | Except.error e =>
      (HttpReply.failure (statisticErrorToResponse e).1 (statisticErrorToResponse e).2,
        [(statisticID, gid)])

/-- Modelled from the spec: the delete-statistic handler.  The game-id
header gates the route; otherwise the configured domain function is
invoked with the statistic id from the path and the game id from the
header, success yields 204 with no payload, and a domain error is mapped
through `statisticErrorToResponse`.  The second component records the
domain-function invocations performed. -/
def buildDeleteStatisticHandler
    (softDeleteStatisticByIDAndGameID : String → String → Option StatisticError)
    (gameID : Option String) (statisticID : String) :
    HttpReply Unit × List (String × String) :=
  match gameID with
  | none => (HttpReply.failure 422 ErrorResponse.StatisticInvalidGameID, [])
  | some gid =>
    match softDeleteStatisticByIDAndGameID statisticID gid with
    | none => (HttpReply.success 204 (), [(statisticID, gid)])
    | some e =>
      (HttpReply.failure (statisticErrorToResponse e).1 (statisticErrorToResponse e).2,
        [(statisticID, gid)])

/-! ## Theorems about the Ranking Upsert Selector -/

theorem Leaderboard.closed_of_past (lb : Leaderboard) (now : Int)
    (h1 : lb.EndAt ≠ 0) (h2 : lb.EndAt < now) : lb.Closed now = true := by
  simp [Leaderboard.Closed, h1, h2]

/-- C1: for every leaderboard whose window is not closed, the upsert
selector dispatches on the aggregation mode: mode increment invokes only
the increment operation, mode max only the set-if-greater operation, mode
min only the set-if-lesser operation, in each case passing the leaderboard
id, the player id and the candidate value, and returning exactly the
invoked operation's error (nil when it succeeds). -/
theorem upsert_dispatches_by_aggregation_mode
    (incF maxF minF : String → String → ℚ → Option RankingError)
    (now : Int) (lb : Leaderboard) (playerID : String) (value : ℚ)
    (hopen : lb.Closed now = false) :
    (lb.AggregationMode = AggregationModeInc →
      buildUpsertPlayerRankFunc incF maxF minF now lb playerID value
        = (incF lb.ID playerID value, [UpsertCall.increment lb.ID playerID value])) ∧
    (lb.AggregationMode = AggregationModeMax →
      buildUpsertPlayerRankFunc incF maxF minF now lb playerID value
        = (maxF lb.ID playerID value, [UpsertCall.setMax lb.ID playerID value])) ∧
    (lb.AggregationMode = AggregationModeMin →
      buildUpsertPlayerRankFunc incF maxF minF now lb playerID value
        = (minF lb.ID playerID value, [UpsertCall.setMin lb.ID playerID value])) := by
  refine ⟨fun h => ?_, fun h => ?_, fun h => ?_⟩ <;>
    simp [buildUpsertPlayerRankFunc, hopen, h,
      AggregationModeInc, AggregationModeMax, AggregationModeMin]

def witUpsertOk : String → String → ℚ → Option RankingError := fun _ _ _ => none

def witLbMax : Leaderboard :=
  { ID := "lb-1", GameID := "game-1", AggregationMode := AggregationModeMax,
    Ordering := OrderingAsc, EndAt := 0 }

theorem upsert_dispatches_by_aggregation_mode_witness :
    buildUpsertPlayerRankFunc witUpsertOk witUpsertOk witUpsertOk 1000 witLbMax "player-1" 42
      = (none, [UpsertCall.setMax "lb-1" "player-1" 42]) := by
  have h := (upsert_dispatches_by_aggregation_mode witUpsertOk witUpsertOk witUpsertOk 1000
      witLbMax "player-1" 42 (by decide)).2.1 rfl
  simpa [witUpsertOk, witLbMax] using h

/-- C2: for every leaderboard whose end time is non-zero and in the past,
the upsert selector fails with the leaderboard-closed error regardless of
aggregation mode or candidate value, and invokes none of the three update
operations. -/
theorem upsert_closed_window_rejected
    (incF maxF minF : String → String → ℚ → Option RankingError)
    (now : Int) (lb : Leaderboard) (playerID : String) (value : ℚ)
    (h1 : lb.EndAt ≠ 0) (h2 : lb.EndAt < now) :
    buildUpsertPlayerRankFunc incF maxF minF now lb playerID value
      = (some RankingError.ErrLeaderboardClosed, []) := by
  simp [buildUpsertPlayerRankFunc, Leaderboard.closed_of_past lb now h1 h2]

def witLbClosed : Leaderboard :=
  { ID := "lb-2", GameID := "game-1", AggregationMode := AggregationModeInc,
    Ordering := OrderingAsc, EndAt := 5 }

theorem upsert_closed_window_rejected_witness :
    buildUpsertPlayerRankFunc witUpsertOk witUpsertOk witUpsertOk 1000 witLbClosed "player-1" 7
      = (some RankingError.ErrLeaderboardClosed, []) :=
  upsert_closed_window_rejected witUpsertOk witUpsertOk witUpsertOk 1000 witLbClosed "player-1" 7
    (by decide) (by decide)

/-- C3: for every leaderboard whose window is not closed and whose
aggregation mode is none of increment, max or min, the upsert selector
fails with the invalid-aggregation-mode error and invokes none of the
three update operations. -/
theorem upsert_invalid_aggregation_mode_rejected
    (incF maxF minF : String → String → ℚ → Option RankingError)
    (now : Int) (lb : Leaderboard) (playerID : String) (value : ℚ)
    (hopen : lb.Closed now = false)
    (h1 : lb.AggregationMode ≠ AggregationModeInc)
    (h2 : lb.AggregationMode ≠ AggregationModeMax)
    (h3 : lb.AggregationMode ≠ AggregationModeMin) :
    buildUpsertPlayerRankFunc incF maxF minF now lb playerID value
      = (some RankingError.ErrInvalidAggregationMode, []) := by
  simp [buildUpsertPlayerRankFunc, hopen, h1, h2, h3]

def witLbInvalidMode : Leaderboard :=
  { ID := "lb-3", GameID := "game-1", AggregationMode := "INVALID",
    Ordering := OrderingAsc, EndAt := 0 }

theorem upsert_invalid_aggregation_mode_rejected_witness :
    buildUpsertPlayerRankFunc witUpsertOk witUpsertOk witUpsertOk 1000 witLbInvalidMode
      "player-1" 7 = (some RankingError.ErrInvalidAggregationMode, []) :=
  upsert_invalid_aggregation_mode_rejected witUpsertOk witUpsertOk witUpsertOk 1000
    witLbInvalidMode "player-1" 7 (by decide) (by decide) (by decide) (by decide)

/-! ## Theorems about the Ranking Page Reader -/

/-- C4: for every page number strictly below the configured minimum (0),
the page reader fails with the invalid-page-number error and never invokes
the paged-fetch operation, for any leaderboard, any limit and any
configured limit bounds. -/
theorem ranking_page_below_minimum_rejected
    (fetchFunc : String → String → Int → Int → Except RankingError (List Rank))
    (minLimit maxLimit : Int) (lb : Leaderboard) (page limit : Int)
    (h : page < MinPageNumber) :
    buildRankingFunc fetchFunc minLimit maxLimit lb page limit
      = (Except.error RankingError.ErrInvalidPageNumber, []) := by
  simp [buildRankingFunc, h]

def witFetchEmpty : String → String → Int → Int → Except RankingError (List Rank) :=
  fun _ _ _ _ => Except.ok []

def witLbAsc : Leaderboard :=
  { ID := "lb-4", GameID := "game-1", AggregationMode := AggregationModeInc,
    Ordering := OrderingAsc, EndAt := 0 }

theorem ranking_page_below_minimum_rejected_witness :
    buildRankingFunc witFetchEmpty 1 500 witLbAsc (-1) 10
      = (Except.error RankingError.ErrInvalidPageNumber, []) :=
  ranking_page_below_minimum_rejected witFetchEmpty 1 500 witLbAsc (-1) 10 (by decide)

/-- C5: for every limit strictly below the configured minimum or strictly
above the configured maximum, the page reader fails with the
invalid-limit-number error and never invokes the paged-fetch operation,
for any leaderboard and any page number at or above the minimum. -/
theorem ranking_limit_out_of_bounds_rejected
    (fetchFunc : String → String → Int → Int → Except RankingError (List Rank))
    (minLimit maxLimit : Int) (lb : Leaderboard) (page limit : Int)
    (hp : MinPageNumber ≤ page) (h : limit < minLimit ∨ maxLimit < limit) :
    buildRankingFunc fetchFunc minLimit maxLimit lb page limit
      = (Except.error RankingError.ErrInvalidLimitNumber, []) := by
  simp [buildRankingFunc, not_lt.mpr hp, h]

theorem ranking_limit_out_of_bounds_rejected_witness :
    buildRankingFunc witFetchEmpty 1 500 witLbAsc 0 0
      = (Except.error RankingError.ErrInvalidLimitNumber, []) :=
  ranking_limit_out_of_bounds_rejected witFetchEmpty 1 500 witLbAsc 0 0 (by decide)
    (Or.inl (by decide))

/-- C6: for every page number and limit within the configured bounds, the
page reader delegates exactly once to the paged-fetch operation with the
leaderboard's id and ordering and the given page and limit, and returns
that operation's result unchanged; in particular a collaborator returning
an empty sequence yields an empty sequence with no error. -/
theorem ranking_in_bounds_delegates
    (fetchFunc : String → String → Int → Int → Except RankingError (List Rank))
    (minLimit maxLimit : Int) (lb : Leaderboard) (page limit : Int)
    (hp : MinPageNumber ≤ page) (hmin : minLimit ≤ limit) (hmax : limit ≤ maxLimit) :
    buildRankingFunc fetchFunc minLimit maxLimit lb page limit
      = (fetchFunc lb.ID lb.Ordering page limit,
          [{ leaderboardID := lb.ID, ordering := lb.Ordering, page := page, limit := limit }]) := by
  simp [buildRankingFunc, not_lt.mpr hp, not_lt.mpr hmin, not_lt.mpr hmax]

theorem ranking_in_bounds_delegates_witness :
    buildRankingFunc witFetchEmpty 1 500 witLbAsc 0 10
      = (Except.ok [],
          [{ leaderboardID := "lb-4", ordering := OrderingAsc, page := 0, limit := 10 }]) := by
  have h := ranking_in_bounds_delegates witFetchEmpty 1 500 witLbAsc 0 10
    (by decide) (by decide) (by decide)
  simpa [witFetchEmpty, witLbAsc] using h

/-- C10: the closed-window check takes precedence over the
aggregation-mode check: for every leaderboard whose end time is non-zero
and in the past and whose aggregation mode is none of increment, max or
min, the upsert selector returns the leaderboard-closed error, not the
invalid-aggregation-mode error. -/
theorem upsert_closed_precedes_invalid_mode
    (incF maxF minF : String → String → ℚ → Option RankingError)
    (now : Int) (lb : Leaderboard) (playerID : String) (value : ℚ)
    (h1 : lb.EndAt ≠ 0) (h2 : lb.EndAt < now)
    (_h3 : lb.AggregationMode ≠ AggregationModeInc)
    (_h4 : lb.AggregationMode ≠ AggregationModeMax)
    (_h5 : lb.AggregationMode ≠ AggregationModeMin) :
    buildUpsertPlayerRankFunc incF maxF minF now lb playerID value
      = (some RankingError.ErrLeaderboardClosed, []) := by
  simp [buildUpsertPlayerRankFunc, Leaderboard.closed_of_past lb now h1 h2]

def witLbClosedInvalid : Leaderboard :=
  { ID := "lb-5", GameID := "game-1", AggregationMode := "",
    Ordering := OrderingAsc, EndAt := 5 }

theorem upsert_closed_precedes_invalid_mode_witness :
    buildUpsertPlayerRankFunc witUpsertOk witUpsertOk witUpsertOk 1000 witLbClosedInvalid
      "player-1" 7 = (some RankingError.ErrLeaderboardClosed, []) :=
  upsert_closed_precedes_invalid_mode witUpsertOk witUpsertOk witUpsertOk 1000
    witLbClosedInvalid "player-1" 7 (by decide) (by decide) (by decide) (by decide) (by decide)

/-! ## Error propagation -/

/-- C7: whenever an invoked collaborator operation reports an error, the
upsert selector (for each aggregation mode) and the page reader return
that error to the caller unchanged — including the distinguished not-found
and invalid-ordering errors and arbitrary errors, since `e` ranges over
all of `RankingError` — with no retry and no error swallowed. -/
theorem collaborator_errors_propagate_unchanged
    (incF maxF minF : String → String → ℚ → Option RankingError)
    (fetchFunc : String → String → Int → Int → Except RankingError (List Rank))
    (minLimit maxLimit now : Int) (lb : Leaderboard)
    (playerID : String) (value : ℚ) (page limit : Int) (e : RankingError)
    (hopen : lb.Closed now = false)
    (hp : MinPageNumber ≤ page) (hmin : minLimit ≤ limit) (hmax : limit ≤ maxLimit) :
    (lb.AggregationMode = AggregationModeInc → incF lb.ID playerID value = some e →
      (buildUpsertPlayerRankFunc incF maxF minF now lb playerID value).1 = some e) ∧
    (lb.AggregationMode = AggregationModeMax → maxF lb.ID playerID value = some e →
      (buildUpsertPlayerRankFunc incF maxF minF now lb playerID value).1 = some e) ∧
    (lb.AggregationMode = AggregationModeMin → minF lb.ID playerID value = some e →
      (buildUpsertPlayerRankFunc incF maxF minF now lb playerID value).1 = some e) ∧
    (fetchFunc lb.ID lb.Ordering page limit = Except.error e →
      (buildRankingFunc fetchFunc minLimit maxLimit lb page limit).1 = Except.error e) := by
  refine ⟨fun h he => ?_, fun h he => ?_, fun h he => ?_, fun he => ?_⟩
  · simp [buildUpsertPlayerRankFunc, hopen, h, he,
      AggregationModeInc, AggregationModeMax, AggregationModeMin]
  · simp [buildUpsertPlayerRankFunc, hopen, h, he,
      AggregationModeInc, AggregationModeMax, AggregationModeMin]
  · simp [buildUpsertPlayerRankFunc, hopen, h, he,
      AggregationModeInc, AggregationModeMax, AggregationModeMin]
  · simp [buildRankingFunc, not_lt.mpr hp, not_lt.mpr hmin, not_lt.mpr hmax, he]

def witFetchInvalidOrdering :
    String → String → Int → Int → Except RankingError (List Rank) :=
  fun _ _ _ _ => Except.error RankingError.ErrInvalidOrdering

theorem collaborator_errors_propagate_unchanged_witness :
    (buildRankingFunc witFetchInvalidOrdering 1 500 witLbAsc 0 10).1
      = Except.error RankingError.ErrInvalidOrdering :=
  (collaborator_errors_propagate_unchanged witUpsertOk witUpsertOk witUpsertOk
      witFetchInvalidOrdering 1 500 1000 witLbAsc "player-1" 7 0 10
      RankingError.ErrInvalidOrdering (by decide) (by decide) (by decide)
      (by decide)).2.2.2 rfl

/-! ## Theorems about the statistic REST layer -/

/-- C8: the statistic endpoints map domain outcomes to status codes: a
malformed create body yields 400 with the invalid-request-body response;
success yields 201 (create), 200 (get) and 204 (delete); a domain error is
mapped through `statisticErrorToResponse`, which sends the validation
errors to 422, not-found to 404, and any unexpected error to 500. -/
theorem statistic_handlers_map_status_codes
    (createFn : NewStatisticData → Except StatisticError Statistic)
    (getFn : String → String → Except StatisticError Statistic)
    (delFn : String → String → Option StatisticError)
    (gid sid : String) (req : CreateStatisticReq) :
    (buildCreateStatisticHandler createFn (some gid) none
        = (HttpReply.failure 400 ErrorResponse.InvalidRequestBody, [])) ∧
    (∀ s, createFn (req.toDomain gid) = Except.ok s →
      buildCreateStatisticHandler createFn (some gid) (some req)
        = (HttpReply.success 201 s, [req.toDomain gid])) ∧
    (∀ e, createFn (req.toDomain gid) = Except.error e →
      buildCreateStatisticHandler createFn (some gid) (some req)
        = (HttpReply.failure (statisticErrorToResponse e).1 (statisticErrorToResponse e).2,
            [req.toDomain gid])) ∧
    (∀ s, getFn sid gid = Except.ok s →
      buildGetStatisticHandler getFn (some gid) sid
        = (HttpReply.success 200 s, [(sid, gid)])) ∧
    (∀ e, getFn sid gid = Except.error e →
      buildGetStatisticHandler getFn (some gid) sid
        = (HttpReply.failure (statisticErrorToResponse e).1 (statisticErrorToResponse e).2,
            [(sid, gid)])) ∧
    (delFn sid gid = none →
      buildDeleteStatisticHandler delFn (some gid) sid
        = (HttpReply.success 204 (), [(sid, gid)])) ∧
    (∀ e, delFn sid gid = some e →
      buildDeleteStatisticHandler delFn (some gid) sid
        = (HttpReply.failure (statisticErrorToResponse e).1 (statisticErrorToResponse e).2,
            [(sid, gid)])) ∧
    (statisticErrorToResponse StatisticError.ErrInvalidStatistic
        = (422, ErrorResponse.StatisticInvalid)) ∧
    (statisticErrorToResponse StatisticError.ErrInvalidStatisticID
        = (422, ErrorResponse.StatisticInvalidID)) ∧
    (statisticErrorToResponse StatisticError.ErrStatisticNotFound
        = (404, ErrorResponse.StatisticNotFound)) ∧
    (∀ msg, statisticErrorToResponse (StatisticError.ErrOther msg)
        = (500, ErrorResponse.InternalServerError)) := by
  refine ⟨rfl, fun s hs => ?_, fun e he => ?_, fun s hs => ?_, fun e he => ?_,
    fun hd => ?_, fun e he => ?_, rfl, rfl, rfl, fun msg => rfl⟩
  · simp [buildCreateStatisticHandler, hs]
  · simp [buildCreateStatisticHandler, he]
  · simp [buildGetStatisticHandler, hs]
  · simp [buildGetStatisticHandler, he]
  · simp [buildDeleteStatisticHandler, hd]
  · simp [buildDeleteStatisticHandler, he]

def witGetNotFound : String → String → Except StatisticError Statistic :=
  fun _ _ => Except.error StatisticError.ErrStatisticNotFound

def witCreateOk : NewStatisticData → Except StatisticError Statistic :=
  fun d => Except.ok
    { ID := "stat-new", GameID := d.GameID, Name := d.Name, Description := d.Description,
      AggregationMode := d.AggregationMode, Goal := d.Goal, Landmarks := d.Landmarks }

def witDelOk : String → String → Option StatisticError := fun _ _ => none

def witReq : CreateStatisticReq :=
  { Name := "Test Create Statistic", Description := "unit test",
    AggregationMode := "MAX", Goal := none, Landmarks := [10, 50, 100] }

theorem statistic_handlers_map_status_codes_witness :
    buildGetStatisticHandler witGetNotFound (some "game-1") "stat-1"
      = (HttpReply.failure 404 ErrorResponse.StatisticNotFound, [("stat-1", "game-1")]) := by
  have h := (statistic_handlers_map_status_codes witCreateOk witGetNotFound witDelOk
      "game-1" "stat-1" witReq).2.2.2.2.1 StatisticError.ErrStatisticNotFound rfl
  simpa [statisticErrorToResponse] using h

/-- C9: on every statistic route (create, get, delete), a request without
the game-id header is rejected with status 422 and the invalid-game-id
error response, and the configured domain function is never invoked. -/
theorem statistic_routes_require_game_id
    (createFn : NewStatisticData → Except StatisticError Statistic)
    (getFn : String → String → Except StatisticError Statistic)
    (delFn : String → String → Option StatisticError)
    (body : Option CreateStatisticReq) (sid : String) :
    buildCreateStatisticHandler createFn none body
        = (HttpReply.failure 422 ErrorResponse.StatisticInvalidGameID, []) ∧
    buildGetStatisticHandler getFn none sid
        = (HttpReply.failure 422 ErrorResponse.StatisticInvalidGameID, []) ∧
    buildDeleteStatisticHandler delFn none sid
        = (HttpReply.failure 422 ErrorResponse.StatisticInvalidGameID, []) :=
  ⟨rfl, rfl, rfl⟩

end GameBlitz
